import Mathlib

set_option maxRecDepth 8000
set_option linter.unusedVariables false

/-!
# Verification of the herman order pipeline (src/server.js)

Shallow embedding of the order validation, normalization, persistence and
notification dispatch of `server.js`, together with proofs of the spec's
claims about them.

Conventions of the embedding:
* A JavaScript field that may be `undefined` is an `Option`; `none` is
  "absent / undefined".
* JS string truthiness (`!x` rejects `undefined` and `""`) is `truthyS`;
  JS number truthiness (`!x` rejects `undefined`, `NaN` and `0`) is
  `truthyN` on `Option Int`, with `none` standing for "absent or not a
  number" (the `typeof x !== 'number'` checks).
* `await`/promise rejection becomes `Except`; an HTTP handler returns a
  plain result value.
* The outcomes of the two notification transports (nodemailer `sendMail`
  and the SMS provider call) are inputs of the model (`NotifyEnv`), since
  they are external collaborators.
-/

deriving instance DecidableEq for Except

namespace Herman

/-- JS `String.prototype.trim`: strip leading and trailing whitespace
(structural recursion on the character list, so it computes in the kernel). -/
def jsTrim (s : String) : String :=
  ⟨((s.data.dropWhile Char.isWhitespace).reverse.dropWhile Char.isWhitespace).reverse⟩

/-- JS truthiness of a possibly-absent string: `undefined` and `""` are falsy. -/
def truthyS : Option String → Bool
  | none => false
  | some s => s != ""

/-- JS truthiness of a possibly-absent number: `undefined`/`NaN`/`0` are falsy. -/
def truthyN : Option Int → Bool
  | none => false
  | some n => n != 0

/-! ## Raw (wire) payload: `req.body` of `POST /api/orders` -/

structure RawCustomer where
  firstName : Option String
  lastName : Option String
  phone : Option String
  email : Option String
deriving DecidableEq, Repr

structure RawDelivery where
  address : Option String
  city : Option String
  postalCode : Option String
deriving DecidableEq, Repr

structure RawPayment where
  method : Option String
  transactionId : Option String
deriving DecidableEq, Repr

structure RawItem where
  productId : Option String
  id : Option String
  name : Option String
  price : Option Int
  quantity : Option Int
  category : Option String
deriving DecidableEq, Repr

structure RawTotals where
  subtotal : Option Int
  deliveryCharge : Option Int
  total : Option Int
deriving DecidableEq, Repr

structure RawOrder where
  customer : Option RawCustomer
  delivery : Option RawDelivery
  payment : Option RawPayment
  items : Option (List RawItem)
  totals : Option RawTotals
  orderNotes : Option String
deriving DecidableEq, Repr

/-! ## Clean (persisted) order document -/

structure CleanCustomer where
  firstName : String
  lastName : String
  phone : String
  email : Option String
deriving DecidableEq, Repr

structure CleanDelivery where
  address : String
  city : String
  postalCode : Option String
deriving DecidableEq, Repr

structure CleanPayment where
  method : String
  transactionId : Option String
  status : String
deriving DecidableEq, Repr

structure CleanItem where
  productId : Option String
  name : String
  price : Int
  quantity : Int
  category : String
deriving DecidableEq, Repr

structure CleanTotals where
  subtotal : Int
  deliveryCharge : Int
  total : Int
deriving DecidableEq, Repr

/-- The mongoose `Order` document. `orderNumber` is `none` until the
pre-save hook assigns it. Timestamps are abstract `Nat` instants. -/
structure OrderDoc where
  orderNumber : Option String
  customer : CleanCustomer
  delivery : CleanDelivery
  payment : CleanPayment
  items : List CleanItem
  totals : CleanTotals
  status : String
  orderNotes : String
  adminNotes : String
  createdAt : Nat
  updatedAt : Nat
deriving DecidableEq, Repr

/-! ## Route-level validation (`POST /api/orders`, server.js lines 136-181) -/

/-- First error of the per-item loop (server.js lines 166-176):
`!item.productId || !item.name || !item.price || !item.quantity`, then
`typeof item.price !== 'number' || item.price <= 0`, then the same for
quantity; short-circuits on the first failing item. -/
def checkItems : List RawItem → Option String
  | [] => none
  | it :: rest =>
    if !truthyS it.productId || !truthyS it.name || !truthyN it.price || !truthyN it.quantity then
      some "Each item must have productId, name, price, and quantity"
    else if !(match it.price with | some p => decide (0 < p) | none => false) then
      some "Item price must be a positive number"
    else if !(match it.quantity with | some q => decide (0 < q) | none => false) then
      some "Item quantity must be a positive number"
    else checkItems rest

/-- The sequential checks of the `POST /api/orders` handler
(server.js lines 136-181): returns the 400 error message of the first
failing check, or `none` when the payload passes. -/
def routeValidate (o : RawOrder) : Option String :=
  if o.customer.isNone || o.delivery.isNone || o.payment.isNone || o.items.isNone
      || (o.items.getD []).isEmpty then
    some "Missing required order information"
  else
    let c := o.customer.getD ⟨none, none, none, none⟩
    if !truthyS c.firstName || !truthyS c.lastName || !truthyS c.phone then
      some "Customer name and phone are required"
    else
      let dl := o.delivery.getD ⟨none, none, none⟩
      if !truthyS dl.address || !truthyS dl.city then
        some "Delivery address and city are required"
      else
        let p := o.payment.getD ⟨none, none⟩
        if !truthyS p.method || !(["bkash", "cod"].contains (p.method.getD "")) then
          some "Valid payment method is required (bkash or cod)"
        else if p.method == some "bkash" && !truthyS p.transactionId then
          some "Transaction ID is required for bKash payment"
        else if (o.items.getD []).isEmpty then
          some "Order must contain at least one item"
        else
          match checkItems (o.items.getD []) with
          | some e => some e
          | none =>
            let t := o.totals.getD ⟨none, none, none⟩
            if o.totals.isNone
                || !(match t.total with | some x => decide (0 < x) | none => false) then
              some "Valid order total is required"
            else none

/-! ## Normalization (`cleanOrderData`, server.js lines 184-233) -/

/-- The `v ? v.trim() : undefined` step followed by the
`if (!field) delete field` step applied to the optional fields
`customer.email`, `delivery.postalCode`, `payment.transactionId`. -/
def cleanOptional (v : Option String) : Option String :=
  let e : Option String := match v with
    | some s => if s != "" then some (jsTrim s) else none
    | none => none
  match e with
  | some t => if t != "" then some t else none
  | none => none

/-- JS `a || b` on possibly-absent strings (used for `item.productId || item.id`). -/
def jsOrS (a b : Option String) : Option String :=
  if truthyS a then a else b

/-- One element of the `orderData.items.map(...)` of `cleanOrderData`.
Only invoked after route validation, which guarantees `name`, `price`,
`quantity` are present; the `getD` defaults totalize the JS member
accesses that validation makes unreachable. -/
def cleanItem (it : RawItem) : CleanItem :=
  { productId := jsOrS it.productId it.id
    name := jsTrim (it.name.getD "")
    price := it.price.getD 0
    quantity := it.quantity.getD 0
    category := match it.category with
      | some c => if c != "" then c else "other"
      | none => "other" }

/-- `cleanOrderData` (server.js lines 184-233) followed by the three
`delete`-if-falsy steps, as the document handed to `new Order(...)`;
`now` is the `new Date()` instant. Only invoked after route validation;
the `getD` defaults totalize member accesses that validation makes
unreachable. -/
def cleanOrderData (o : RawOrder) (now : Nat) : OrderDoc :=
  let c := o.customer.getD ⟨none, none, none, none⟩
  let dl := o.delivery.getD ⟨none, none, none⟩
  let p := o.payment.getD ⟨none, none⟩
  let its := o.items.getD []
  let t := o.totals.getD ⟨none, none, none⟩
  { orderNumber := none
    customer :=
      { firstName := jsTrim (c.firstName.getD "")
        lastName := jsTrim (c.lastName.getD "")
        phone := jsTrim (c.phone.getD "")
        email := cleanOptional c.email }
    delivery :=
      { address := jsTrim (dl.address.getD "")
        city := jsTrim (dl.city.getD "")
        postalCode := cleanOptional dl.postalCode }
    payment :=
      { method := p.method.getD ""
        transactionId := cleanOptional p.transactionId
        status := "pending" }
    items := its.map cleanItem
    totals :=
      { subtotal := t.subtotal.getD 0
        deliveryCharge := t.deliveryCharge.getD 0
        total := t.total.getD 0 }
    status := "pending"
    orderNotes := match o.orderNotes with
      | some s => if s != "" then jsTrim s else ""
      | none => ""
    adminNotes := ""
    createdAt := now
    updatedAt := now }

/-! ## Mongoose schema validation (`orderSchema`, server.js lines 439-514)

Mongoose `required` on a `String` path fails for the empty string; `enum`
and `min` are the validators written in the schema. Validation runs before
the user `pre('save')` hook (which is why `orderNumber` is declared
`required: false`). Mongoose collects all path errors, so the schema check
is a plain conjunction. -/

def orderStatuses : List String :=
  ["pending", "confirmed", "processing", "shipped", "delivered", "cancelled"]

def payStatuses : List String := ["pending", "paid", "failed"]

/-- Validators of one entry of the `items` sub-schema. -/
def itemSchemaValid (it : CleanItem) : Bool :=
  (match it.productId with | some p => p != "" | none => false) &&
  it.name != "" && 0 ≤ it.price && 1 ≤ it.quantity

/-- Document-level validation of `orderSchema`. -/
def schemaValid (d : OrderDoc) : Bool :=
  d.customer.firstName != "" && d.customer.lastName != "" && d.customer.phone != "" &&
  d.delivery.address != "" && d.delivery.city != "" &&
  ["bkash", "cod"].contains d.payment.method &&
  payStatuses.contains d.payment.status &&
  d.items.all itemSchemaValid &&
  0 ≤ d.totals.subtotal && 0 ≤ d.totals.deliveryCharge && 0 ≤ d.totals.total &&
  orderStatuses.contains d.status

/-! ## Order-number generation and save (server.js lines 517-528) -/

/-- JS `String.prototype.padStart(w, '0')` (chars are ASCII here). -/
def padStart (w : Nat) (s : String) : String :=
  ⟨List.replicate (w - s.data.length) '0' ++ s.data⟩

/-- JS `s.slice(-2)`: the last two characters (the whole string when
shorter than two characters). -/
def sliceLastTwo (s : String) : String :=
  ⟨s.data.drop (s.data.length - 2)⟩

/-- `` `HM${year}${month}${day}${random}` `` of the pre-save hook:
`year` is `getFullYear().toString().slice(-2)`, `month`/`day` are
zero-padded to 2 digits, `random` (0-999) to 3 digits. -/
def genOrderNumber (year month day rand : Nat) : String :=
  "HM" ++ sliceLastTwo (Nat.repr year) ++ padStart 2 (Nat.repr month)
    ++ padStart 2 (Nat.repr day) ++ padStart 3 (Nat.repr rand)

/-- Environment of one `save()` call: the wall clock (`year`/`month`/`day`
from `new Date()`, `month` already includes the `getMonth() + 1`), the
draw of `Math.floor(Math.random() * 1000)`, the `Date.now()` instant, and
the `orderNumber`s already persisted (the unique index). -/
structure SaveCtx where
  year : Nat
  month : Nat
  day : Nat
  rand : Nat
  now : Nat
  existing : List String
deriving Repr

/-- The `orderSchema.pre('save')` hook: assigns `orderNumber` when the
document has none (JS truthiness: `undefined` or `""`), and always bumps
`updatedAt`. -/
def preSave (ctx : SaveCtx) (d : OrderDoc) : OrderDoc :=
  let d1 :=
    if truthyS d.orderNumber then d
    else { d with orderNumber := some (genOrderNumber ctx.year ctx.month ctx.day ctx.rand) }
  { d1 with updatedAt := ctx.now }

inductive SaveError where
  /-- mongoose `ValidationError` (`error.name === 'ValidationError'`). -/
  | validationFailed : SaveError
  /-- MongoDB duplicate-key error from the `orderNumber` unique index. -/
  | dupKey : SaveError
deriving DecidableEq, Repr

/-- `order.save()`: schema validation, then the pre-save hook, then the
write, which the `orderNumber` unique index rejects when the generated
number is already persisted. -/
def mongooseSave (ctx : SaveCtx) (d : OrderDoc) : Except SaveError OrderDoc :=
  if !schemaValid d then .error .validationFailed
  else
    let d2 := preSave ctx d
    match d2.orderNumber with
    | some n => if ctx.existing.contains n then .error .dupKey else .ok d2
    | none => .ok d2

/-! ## Notification dispatch (server.js lines 552-814) -/

/-- A per-channel outcome object (`{success}` or `{success: false, error}`). -/
structure Outcome where
  success : Bool
  error : Option String
deriving DecidableEq, Repr

/-- The result object of `sendOrderConfirmation` / `sendStatusUpdateNotification`:
`{ email: null, sms: null }` with each channel filled in when attempted. -/
structure NotifyResults where
  email : Option Outcome
  sms : Option Outcome
deriving DecidableEq, Repr

/-- Outcomes of the two external transports during one dispatch:
`emailSend` models the `transporter.sendMail` promise, `smsBody` the body
of `sendSMS`'s `try` block (the provider call). `.error msg` is a raised
exception with message `msg`. -/
structure NotifyEnv where
  emailSend : Except String Unit
  smsBody : Except String Unit

/-- `sendSMS` (server.js lines 552-577): the provider call is guarded by
its own `try`/`catch`, so the function always returns an outcome object
and never throws. -/
def sendSMS (r : Except String Unit) : Outcome :=
  match r with
  | .ok _ => ⟨true, none⟩
  | .error e => ⟨false, some e⟩

/-- `getOrderConfirmationSMS` (server.js lines 711-713). -/
def getOrderConfirmationSMS (d : OrderDoc) : String :=
  "Herman Perfume: Your order " ++ (d.orderNumber.getD "") ++
    " has been confirmed! Total: " ++ Int.repr d.totals.total ++
    ". We'll call you within 24hrs. Track: www.hermanperfume.com/track"

/-- `getOrderStatusSMS` (server.js lines 715-725): the five mapped
statuses, with the generic fallback for every other status string. -/
def getOrderStatusSMS (d : OrderDoc) (newStatus : String) : String :=
  let msg : Option String :=
    if newStatus = "confirmed" then
      some ("Your order " ++ (d.orderNumber.getD "") ++ " is confirmed and being prepared.")
    else if newStatus = "processing" then
      some ("Your order " ++ (d.orderNumber.getD "") ++ " is being processed.")
    else if newStatus = "shipped" then
      some ("Great news! Your order " ++ (d.orderNumber.getD "") ++ " has been shipped and is on the way.")
    else if newStatus = "delivered" then
      some ("Your order " ++ (d.orderNumber.getD "") ++ " has been delivered. Thank you for shopping with Herman Perfume!")
    else if newStatus = "cancelled" then
      some ("Your order " ++ (d.orderNumber.getD "") ++ " has been cancelled. If you have questions, please call us.")
    else none
  "Herman Perfume: " ++ (msg.getD "Order status updated.") ++ " Track: www.hermanperfume.com/track"

/-- `sendOrderConfirmation` (server.js lines 728-759): attempts email only
when `order.customer.email` is truthy, capturing a `sendMail` rejection as
a failure outcome; always attempts SMS; never throws — it always returns
both outcomes. (The HTML template composition is pure string building with
no control effect and is elided.) -/
def sendOrderConfirmation (env : NotifyEnv) (d : OrderDoc) : NotifyResults :=
  let emailRes : Option Outcome :=
    if truthyS d.customer.email then
      match env.emailSend with
      | .ok _ => some ⟨true, none⟩
      | .error msg => some ⟨false, some msg⟩
    else none
  let smsRes : Option Outcome := some (sendSMS env.smsBody)
  ⟨emailRes, smsRes⟩

/-- `sendStatusUpdateNotification` (server.js lines 762-814): same
channel structure as `sendOrderConfirmation`. -/
def sendStatusUpdateNotification (env : NotifyEnv) (d : OrderDoc) (newStatus : String) :
    NotifyResults :=
  let emailRes : Option Outcome :=
    if truthyS d.customer.email then
      match env.emailSend with
      | .ok _ => some ⟨true, none⟩
      | .error msg => some ⟨false, some msg⟩
    else none
  let smsRes : Option Outcome := some (sendSMS env.smsBody)
  ⟨emailRes, smsRes⟩

/-! ## `POST /api/orders` (server.js lines 131-278) -/

/-- HTTP result of the order routes. `r201` carries the body's
`orderNumber` and `order` fields; `r400`/`r500` carry the `error` field. -/
inductive HttpResp where
  | r201 (orderNumber : Option String) (order : OrderDoc) : HttpResp
  | r400 (error : String) : HttpResp
  | r500 (error : String) : HttpResp
deriving DecidableEq, Repr

/-- The MongoDB driver's duplicate-key message (external collaborator,
abstracted as a constant; only `error.name` matters to the handler). -/
def mongoDupKeyMessage : String := "E11000 duplicate key error"

/-- The `POST /api/orders` handler: route validation, normalization,
save, then the confirmation dispatch (whose own failure is swallowed by
`try`/`catch`). The response is the first component; the dispatched
notification results (logged, not sent to the client) are the second. -/
def postOrder (raw : RawOrder) (ctx : SaveCtx) (env : NotifyEnv) :
    HttpResp × Option NotifyResults :=
  match routeValidate raw with
  | some msg => (.r400 msg, none)
  | none =>
    match mongooseSave ctx (cleanOrderData raw ctx.now) with
    | .error .validationFailed => (.r400 "Order validation failed", none)
    | .error .dupKey => (.r500 ("Failed to place order: " ++ mongoDupKeyMessage), none)
    | .ok saved =>
      let results := sendOrderConfirmation env saved
      (.r201 saved.orderNumber saved, some results)

/-! ## `PUT /api/orders/:id` (server.js lines 380-419) -/

/-- The request body of the update route. -/
structure UpdateBody where
  status : Option String
  adminNotes : Option String
  paymentStatus : Option String
deriving DecidableEq, Repr

/-- The `updateData` object (server.js lines 390-393): `status` and
`paymentStatus` are added only when truthy, `adminNotes` whenever it is
not `undefined`; `updatedAt` is always set. -/
structure UpdateData where
  status : Option String
  adminNotes : Option String
  paymentStatus : Option String
  updatedAt : Nat
deriving DecidableEq, Repr

def mkUpdateData (b : UpdateBody) (now : Nat) : UpdateData :=
  { status := if truthyS b.status then b.status else none
    adminNotes := b.adminNotes
    paymentStatus := if truthyS b.paymentStatus then b.paymentStatus else none
    updatedAt := now }

/-- `runValidators: true` on `findByIdAndUpdate`: the updated paths are
validated against the schema (`status` and `payment.status` enums;
`adminNotes` has no validator). -/
def updateValid (u : UpdateData) : Bool :=
  (match u.status with | some s => orderStatuses.contains s | none => true) &&
  (match u.paymentStatus with | some s => payStatuses.contains s | none => true)

/-- Application of `updateData` as a `$set` to the stored document. -/
def applyUpdate (u : UpdateData) (d : OrderDoc) : OrderDoc :=
  { d with
    status := u.status.getD d.status
    adminNotes := u.adminNotes.getD d.adminNotes
    payment := { d.payment with status := u.paymentStatus.getD d.payment.status }
    updatedAt := u.updatedAt }

/-- Result of the `PUT /api/orders/:id` handler. `okResp` carries the
updated order (the 200 body) and the status-update notification results
when the dispatch was invoked. -/
inductive PutResult where
  | notFound : PutResult
  | badRequest (error : String) : PutResult
  | okResp (order : OrderDoc) (notified : Option NotifyResults) : PutResult
deriving DecidableEq, Repr

/-- The `PUT /api/orders/:id` handler: 404 when the id is unknown,
`updateData` built from the body, `findByIdAndUpdate` with
`runValidators` (a validator rejection is caught and returned as 400),
then the status-update dispatch iff the raw body `status` is truthy and
differs from the current status (server.js line 404). -/
def putOrder (body : UpdateBody) (current : Option OrderDoc) (now : Nat) (env : NotifyEnv) :
    PutResult :=
  match current with
  | none => .notFound
  | some currentOrder =>
    let u := mkUpdateData body now
    if !updateValid u then .badRequest "Failed to update order"
    else
      let order := applyUpdate u currentOrder
      let notified : Option NotifyResults :=
        if truthyS body.status && (body.status.getD "") != currentOrder.status then
          some (sendStatusUpdateNotification env order (body.status.getD ""))
        else none
      .okResp order notified

/-- Whether the handler invoked the status-update notification dispatch. -/
def dispatched : PutResult → Bool
  | .okResp _ (some _) => true
  | _ => false

/-! ## Concrete fixtures (used by witnesses and counterexamples) -/

def rawCustomer0 : RawCustomer :=
  { firstName := some "Ada", lastName := some "Lovelace",
    phone := some "01700000000", email := some "ada@example.com" }

def rawItem0 : RawItem :=
  { productId := some "p1", id := none, name := some "Midnight Elegance",
    price := some 50, quantity := some 2, category := some "oriental" }

/-- A payload that passes every check of `POST /api/orders`. -/
def raw0 : RawOrder :=
  { customer := some rawCustomer0
    delivery := some { address := some "1 Main St", city := some "Dhaka", postalCode := none }
    payment := some { method := some "cod", transactionId := none }
    items := some [rawItem0]
    totals := some { subtotal := some 100, deliveryCharge := some 30, total := some 130 }
    orderNotes := none }

def ctx0 : SaveCtx :=
  { year := 2025, month := 1, day := 15, rand := 42, now := 5, existing := [] }

def env0 : NotifyEnv := ⟨.ok (), .ok ()⟩

/-- Transport environment in which both channels raise. -/
def envFail : NotifyEnv := ⟨.error "smtp down", .error "sms down"⟩

/-- An already-persisted order, as stored after `postOrder raw0 ctx0`. -/
def doc0 : OrderDoc :=
  { orderNumber := some "HM250115042"
    customer := { firstName := "Ada", lastName := "Lovelace",
                  phone := "01700000000", email := some "ada@example.com" }
    delivery := { address := "1 Main St", city := "Dhaka", postalCode := none }
    payment := { method := "cod", transactionId := none, status := "pending" }
    items := [{ productId := some "p1", name := "Midnight Elegance",
                price := 50, quantity := 2, category := "oriental" }]
    totals := { subtotal := 100, deliveryCharge := 30, total := 130 }
    status := "pending"
    orderNotes := ""
    adminNotes := ""
    createdAt := 5
    updatedAt := 5 }

/-- Save context whose random draw collides with an already-persisted
order number. -/
def ctxDup : SaveCtx :=
  { year := 2025, month := 1, day := 15, rand := 42, now := 5,
    existing := ["HM250115042"] }

/-- Customer section whose `firstName` is whitespace-only. -/
def rawCustomerWS : RawCustomer := { rawCustomer0 with firstName := some " " }

/-- Payload whose `customer.firstName` is whitespace-only. -/
def rawWS : RawOrder := { raw0 with customer := some rawCustomerWS }

/-- Payload whose optional `customer.email` is whitespace-only. -/
def rawEmailWS : RawOrder :=
  { raw0 with customer := some { rawCustomer0 with email := some "  " } }

/-- Payload with the `totals` section missing. -/
def rawNoTotals : RawOrder := { raw0 with totals := none }

/-! ## Helper lemmas -/

/-- `padStart` pads to exactly the requested width when the input is no
longer than it. -/
theorem length_padStart (w : Nat) (s : String) (h : s.length ≤ w) :
    (padStart w s).length = w := by
  show (List.replicate (w - s.data.length) '0' ++ s.data).length = w
  rw [List.length_append, List.length_replicate]
  have hs : s.length = s.data.length := rfl
  omega

/-- `s.slice(-2)` of a string of length at least two has length two. -/
theorem length_sliceLastTwo (s : String) (h : 2 ≤ s.length) :
    (sliceLastTwo s).length = 2 := by
  show (s.data.drop (s.data.length - 2)).length = 2
  rw [List.length_drop]
  have hs : s.length = s.data.length := rfl
  omega

theorem length_append_str (a b : String) : (a ++ b).length = a.length + b.length := by
  show (a.data ++ b.data).length = a.data.length + b.data.length
  exact List.length_append a.data b.data

/-- A payload that passes route validation has a payment section whose
method is `bkash` or `cod`, with a truthy transaction id in the `bkash`
case. -/
theorem routeValidate_payment_inv (o : RawOrder) (h : routeValidate o = none) :
    ∃ p, o.payment = some p ∧
      (p.method = some "bkash" ∨ p.method = some "cod") ∧
      (p.method = some "bkash" → truthyS p.transactionId = true) := by
  simp only [routeValidate] at h
  split at h
  · simp at h
  · split at h
    · simp at h
    · split at h
      · simp at h
      · split at h
        · simp at h
        · split at h
          · simp at h
          · rename_i h1 h2 h3 h4 h5
            have hpay : o.payment = some (o.payment.getD ⟨none, none⟩) := by
              rcases hp : o.payment with _ | p
              · simp [hp] at h1
              · simp [hp]
            refine ⟨o.payment.getD ⟨none, none⟩, hpay, ?_, ?_⟩
            · simp at h4
              rcases h4 with ⟨hmt, hmc⟩
              rcases hm : (o.payment.getD ⟨none, none⟩).method with _ | s
              · rw [hm] at hmc; simp at hmc
              · rw [hm] at hmc
                simp at hmc
                by_cases hs : s = "bkash"
                · left; rw [hs]
                · right; rw [hmc hs]
            · intro hb
              simp at h5
              exact h5 hb

/-- The pre-save hook never touches the customer sub-document. -/
theorem preSave_customer (ctx : SaveCtx) (d : OrderDoc) :
    (preSave ctx d).customer = d.customer := by
  by_cases h : truthyS d.orderNumber = true <;> simp [preSave, h]

/-- A successful `save()` implies the document passed schema validation,
and the stored document is the hook's output. -/
theorem mongooseSave_ok_inv (ctx : SaveCtx) (d saved : OrderDoc)
    (h : mongooseSave ctx d = .ok saved) :
    schemaValid d = true ∧ saved = preSave ctx d := by
  simp only [mongooseSave] at h
  by_cases hv : schemaValid d = true
  · refine ⟨hv, ?_⟩
    simp only [hv, Bool.not_true, Bool.false_eq_true, if_false] at h
    rcases hn : (preSave ctx d).orderNumber with _ | n
    · rw [hn] at h; simp at h; exact h.symm
    · rw [hn] at h
      by_cases hex : n ∈ ctx.existing
      · simp [hex] at h
      · simp [hex] at h; exact h.symm
  · simp [eq_false_of_ne_true hv] at h

/-- Schema validation forces the three required customer strings to be
non-empty. -/
theorem schemaValid_customer (d : OrderDoc) (h : schemaValid d = true) :
    d.customer.firstName ≠ "" ∧ d.customer.lastName ≠ "" ∧ d.customer.phone ≠ "" := by
  simp [schemaValid] at h
  refine ⟨by tauto, by tauto, by tauto⟩

/-- `cleanOptional` drops a field that is absent or trims to empty. -/
theorem cleanOptional_none_cases (v : Option String)
    (h : v = none ∨ (∃ s, v = some s ∧ jsTrim s = "")) : cleanOptional v = none := by
  rcases h with h | ⟨s, hv, hs⟩
  · simp [cleanOptional, h]
  · subst hv
    by_cases he : s = ""
    · simp [cleanOptional, he]
    · simp [cleanOptional, he, hs]

/-- `cleanOptional` never stores an empty-string placeholder. -/
theorem cleanOptional_ne_empty (v : Option String) (s : String)
    (h : cleanOptional v = some s) : s ≠ "" := by
  intro hs
  subst hs
  unfold cleanOptional at h
  rcases v with _ | t
  · simp at h
  · by_cases ht : t = ""
    · simp [ht] at h
    · by_cases htr : jsTrim t = "" <;> simp [ht, htr] at h

/-! ## Claims -/

/-- C1: once a payload passes validation and is persisted, `POST
/api/orders` answers 201 with the persisted order no matter how the
notification transports behave (the response is independent of the
`NotifyEnv`), and `sendOrderConfirmation` is a total function that always
returns a result recording the email outcome (`none` exactly when no
truthy customer email is present, otherwise the per-channel
success/failure outcome) and the SMS outcome, each channel independent of
the other. -/
theorem c1_order_creation_isolated_from_notifications :
    (∀ raw ctx env env1, (postOrder raw ctx env).1 = (postOrder raw ctx env1).1) ∧
    (∀ raw ctx env d, routeValidate raw = none →
      mongooseSave ctx (cleanOrderData raw ctx.now) = .ok d →
      postOrder raw ctx env = (.r201 d.orderNumber d, some (sendOrderConfirmation env d))) ∧
    (∀ env d, (sendOrderConfirmation env d).sms = some (sendSMS env.smsBody) ∧
      ((sendOrderConfirmation env d).email = none ↔ truthyS d.customer.email = false) ∧
      (truthyS d.customer.email = true → env.emailSend = .ok () →
        (sendOrderConfirmation env d).email = some ⟨true, none⟩) ∧
      (∀ msg, truthyS d.customer.email = true → env.emailSend = .error msg →
        (sendOrderConfirmation env d).email = some ⟨false, some msg⟩)) := by
  refine ⟨?_, ?_, ?_⟩
  · intro raw ctx env env1
    simp only [postOrder]
    cases routeValidate raw with
    | some msg => rfl
    | none =>
      cases mongooseSave ctx (cleanOrderData raw ctx.now) with
      | error e => cases e <;> rfl
      | ok saved => rfl
  · intro raw ctx env d h1 h2
    simp only [postOrder, h1, h2]
  · intro env d
    refine ⟨rfl, ?_, ?_, ?_⟩
    · constructor
      · intro h
        by_cases ht : truthyS d.customer.email = true
        · exfalso
          simp only [sendOrderConfirmation, ht, if_true] at h
          cases he : env.emailSend <;> simp [he] at h
        · simpa using eq_false_of_ne_true ht
      · intro h; simp [sendOrderConfirmation, h]
    · intro ht he; simp [sendOrderConfirmation, ht, he]
    · intro msg ht he; simp [sendOrderConfirmation, ht, he]

/-- C1 witness: the valid payload `raw0` persists as `doc0`, and even
with both transports raising, the handler answers 201 with the persisted
order, returning the two failure outcomes as data. -/
theorem c1_witness :
    routeValidate raw0 = none ∧
    mongooseSave ctx0 (cleanOrderData raw0 ctx0.now) = .ok doc0 ∧
    postOrder raw0 ctx0 envFail
      = (.r201 doc0.orderNumber doc0, some (sendOrderConfirmation envFail doc0)) :=
  ⟨by decide, by decide,
    c1_order_creation_isolated_from_notifications.2.1 raw0 ctx0 envFail doc0
      (by decide) (by decide)⟩

/-- C2: evaluation of the handler at the failing input. When the random
suffix drawn for `raw0` collides with an already-persisted order number
(`ctxDup`), the unique index rejects the write and the conflict surfaces
to the caller as a 500 response — the code does not retry generation as
the claim (and §4.2 of the spec) requires. -/
theorem c2_duplicate_order_number_surfaces_as_500 :
    routeValidate raw0 = none ∧
    postOrder raw0 ctxDup env0
      = (.r500 ("Failed to place order: " ++ mongoDupKeyMessage), none) :=
  ⟨by decide, by decide⟩

/-- C3: a payload whose `customer.firstName`, `lastName` or `phone` is a
string that trims to empty is never answered 201 (route truthiness lets
whitespace through, but the mongoose `required` validators reject the
trimmed empty string), and any payload that is answered 201 stores
non-empty trimmed values for all three fields. -/
theorem c3_whitespace_customer_fields_rejected :
    (∀ (raw : RawOrder) (ctx : SaveCtx) (env : NotifyEnv) (c : RawCustomer),
      raw.customer = some c →
      ((∃ s, c.firstName = some s ∧ jsTrim s = "") ∨
       (∃ s, c.lastName = some s ∧ jsTrim s = "") ∨
       (∃ s, c.phone = some s ∧ jsTrim s = "")) →
      ∀ n d, (postOrder raw ctx env).1 ≠ .r201 n d) ∧
    (∀ (raw : RawOrder) (ctx : SaveCtx) (env : NotifyEnv) (n : Option String) (d : OrderDoc),
      (postOrder raw ctx env).1 = .r201 n d →
      d.customer.firstName ≠ "" ∧ d.customer.lastName ≠ "" ∧ d.customer.phone ≠ "") := by
  constructor
  · intro raw ctx env c hc hws n d heq
    simp only [postOrder] at heq
    rcases hrv : routeValidate raw with _ | msg
    · rw [hrv] at heq
      rcases hsv : mongooseSave ctx (cleanOrderData raw ctx.now) with e | saved
      · rw [hsv] at heq; cases e <;> simp at heq
      · obtain ⟨hval, -⟩ := mongooseSave_ok_inv _ _ _ hsv
        obtain ⟨h1, h2, h3⟩ := schemaValid_customer _ hval
        have hfn : (cleanOrderData raw ctx.now).customer.firstName
            = jsTrim (c.firstName.getD "") := by simp [cleanOrderData, hc]
        have hln : (cleanOrderData raw ctx.now).customer.lastName
            = jsTrim (c.lastName.getD "") := by simp [cleanOrderData, hc]
        have hph : (cleanOrderData raw ctx.now).customer.phone
            = jsTrim (c.phone.getD "") := by simp [cleanOrderData, hc]
        rcases hws with ⟨s, hs, htr⟩ | ⟨s, hs, htr⟩ | ⟨s, hs, htr⟩
        · exact h1 (by rw [hfn, hs, Option.getD_some, htr])
        · exact h2 (by rw [hln, hs, Option.getD_some, htr])
        · exact h3 (by rw [hph, hs, Option.getD_some, htr])
    · rw [hrv] at heq; simp at heq
  · intro raw ctx env n d heq
    simp only [postOrder] at heq
    rcases hrv : routeValidate raw with _ | msg
    · rw [hrv] at heq
      rcases hsv : mongooseSave ctx (cleanOrderData raw ctx.now) with e | saved
      · rw [hsv] at heq; cases e <;> simp at heq
      · rw [hsv] at heq
        simp at heq
        obtain ⟨ha, hb⟩ := heq
        obtain ⟨hval, hsaved⟩ := mongooseSave_ok_inv _ _ _ hsv
        obtain ⟨h1, h2, h3⟩ := schemaValid_customer _ hval
        rw [← hb, hsaved, preSave_customer]
        exact ⟨h1, h2, h3⟩
    · rw [hrv] at heq; simp at heq

/-- C3 witness: the payload with a whitespace-only `firstName` is not
answered 201. -/
theorem c3_witness :
    rawWS.customer = some rawCustomerWS ∧ rawCustomerWS.firstName = some " " ∧
    jsTrim " " = "" ∧
    (postOrder rawWS ctx0 env0).1 ≠ .r201 (some "HM250115042") doc0 :=
  ⟨rfl, rfl, by decide,
    c3_whitespace_customer_fields_rejected.1 rawWS ctx0 env0 rawCustomerWS rfl
      (Or.inl ⟨" ", rfl, by decide⟩) (some "HM250115042") doc0⟩

/-- C4 counterexample: a payload missing `customer` and a payload missing
`delivery` produce the identical error message `"Missing required order
information"`, so the message does not identify which section is missing
and is not distinguishable between those sections. -/
theorem c4_missing_section_message_not_distinct :
    ({ raw0 with customer := none } : RawOrder).customer = none ∧
    ({ raw0 with delivery := none } : RawOrder).delivery = none ∧
    routeValidate { raw0 with customer := none }
      = some "Missing required order information" ∧
    routeValidate { raw0 with delivery := none }
      = some "Missing required order information" :=
  ⟨rfl, rfl, by decide, by decide⟩

/-- C4 (amended): a payload missing any of customer, delivery, payment,
items (or with an empty items array) fails with the single combined
message `"Missing required order information"` — one message for all four
sections, not a distinct one per section — while a payload missing only
`totals` (all earlier checks passing) fails with the distinct message
`"Valid order total is required"`. -/
theorem c4_missing_section_messages :
    (∀ raw : RawOrder,
      raw.customer = none ∨ raw.delivery = none ∨ raw.payment = none ∨
        raw.items = none ∨ raw.items = some [] →
      routeValidate raw = some "Missing required order information") ∧
    (∀ (raw : RawOrder) (c : RawCustomer) (dl : RawDelivery) (p : RawPayment)
        (its : List RawItem),
      raw.customer = some c → raw.delivery = some dl → raw.payment = some p →
      raw.items = some its → its.isEmpty = false →
      truthyS c.firstName = true → truthyS c.lastName = true → truthyS c.phone = true →
      truthyS dl.address = true → truthyS dl.city = true →
      truthyS p.method = true → ["bkash", "cod"].contains (p.method.getD "") = true →
      (p.method == some "bkash" && !truthyS p.transactionId) = false →
      checkItems its = none →
      raw.totals = none →
      routeValidate raw = some "Valid order total is required") ∧
    ("Valid order total is required" : String) ≠ "Missing required order information" := by
  refine ⟨?_, ?_, by decide⟩
  · intro raw h
    rcases h with h | h | h | h | h <;> simp [routeValidate, h]
  · intro raw c dl p its hc hdl hp hits hne hfn hln hph haddr hcity hmt hmc hbk hchk htot
    simp [routeValidate, hc, hdl, hp, hits, hne, hfn, hln, hph, haddr, hcity, hmt, hmc,
      hbk, hchk, htot]
    simp at hmc
    tauto

/-- C4 witness: the otherwise-valid payload without `totals` draws the
totals-specific message. -/
theorem c4_witness :
    rawNoTotals.totals = none ∧
    routeValidate rawNoTotals = some "Valid order total is required" :=
  ⟨rfl,
    c4_missing_section_messages.2.1 rawNoTotals rawCustomer0
      { address := some "1 Main St", city := some "Dhaka", postalCode := none }
      { method := some "cod", transactionId := none } [rawItem0]
      rfl rfl rfl rfl (by decide) (by decide) (by decide) (by decide) (by decide)
      (by decide) (by decide) (by decide) (by decide) (by decide) rfl⟩

/-- C5: a `bkash` payload without a truthy `transactionId` never
validates, and when every earlier check passes it fails with the
`"Transaction ID is required for bKash payment"` message; an
otherwise-valid `cod` payload without a `transactionId` validates; and a
payload whose payment method is neither `bkash` nor `cod` never
validates. -/
theorem c5_payment_method_validation :
    (∀ (raw : RawOrder) (p : RawPayment), raw.payment = some p →
      p.method = some "bkash" → truthyS p.transactionId = false →
      routeValidate raw ≠ none) ∧
    (∀ (raw : RawOrder) (c : RawCustomer) (dl : RawDelivery) (p : RawPayment)
        (its : List RawItem),
      raw.customer = some c → raw.delivery = some dl → raw.payment = some p →
      raw.items = some its → its.isEmpty = false →
      truthyS c.firstName = true → truthyS c.lastName = true → truthyS c.phone = true →
      truthyS dl.address = true → truthyS dl.city = true →
      p.method = some "bkash" → truthyS p.transactionId = false →
      routeValidate raw = some "Transaction ID is required for bKash payment") ∧
    (∀ (raw : RawOrder) (c : RawCustomer) (dl : RawDelivery) (p : RawPayment)
        (its : List RawItem) (t : RawTotals),
      raw.customer = some c → raw.delivery = some dl → raw.payment = some p →
      raw.items = some its → its.isEmpty = false →
      truthyS c.firstName = true → truthyS c.lastName = true → truthyS c.phone = true →
      truthyS dl.address = true → truthyS dl.city = true →
      p.method = some "cod" → p.transactionId = none →
      checkItems its = none → raw.totals = some t →
      (∃ x, t.total = some x ∧ 0 < x) →
      routeValidate raw = none) ∧
    (∀ (raw : RawOrder) (p : RawPayment), raw.payment = some p →
      p.method ≠ some "bkash" → p.method ≠ some "cod" →
      routeValidate raw ≠ none) := by
  refine ⟨?_, ?_, ?_, ?_⟩
  · intro raw p hp hb ht hnone
    obtain ⟨q, hq, _, hbk⟩ := routeValidate_payment_inv raw hnone
    rw [hp] at hq
    cases hq
    rw [hbk hb] at ht
    simp at ht
  · intro raw c dl p its hc hdl hp hits hne hfn hln hph haddr hcity hb ht
    have hmt : truthyS p.method = true := by rw [hb]; rfl
    simp [routeValidate, hc, hdl, hp, hits, hne, hfn, hln, hph, haddr, hcity, hmt, hb, ht]
    rfl
  · intro raw c dl p its t hc hdl hp hits hne hfn hln hph haddr hcity hm ht hchk htot hx
    obtain ⟨x, hxt, hxp⟩ := hx
    have hmt : truthyS p.method = true := by rw [hm]; rfl
    simp [routeValidate, hc, hdl, hp, hits, hne, hfn, hln, hph, haddr, hcity, hmt, hm, ht,
      hchk, htot, hxt, hxp]
    rfl
  · intro raw p hp hb hc hnone
    obtain ⟨q, hq, hmem, _⟩ := routeValidate_payment_inv raw hnone
    rw [hp] at hq
    cases hq
    rcases hmem with h | h
    · exact hb h
    · exact hc h

/-- C5 witness: `raw0` is a `cod` payload without a `transactionId` and
it validates. -/
theorem c5_witness :
    raw0.payment = some { method := some "cod", transactionId := none } ∧
    routeValidate raw0 = none :=
  ⟨rfl,
    c5_payment_method_validation.2.2.1 raw0 rawCustomer0
      { address := some "1 Main St", city := some "Dhaka", postalCode := none }
      { method := some "cod", transactionId := none } [rawItem0]
      { subtotal := some 100, deliveryCharge := some 30, total := some 130 }
      rfl rfl rfl rfl (by decide) (by decide) (by decide) (by decide) (by decide)
      (by decide) rfl rfl (by decide) rfl ⟨130, rfl, by decide⟩⟩

/-- C6: normalization drops `customer.email`, `delivery.postalCode` and
`payment.transactionId` entirely (to `none`, never an empty string or
placeholder) whenever the supplied value is missing or trims to empty;
a missing or empty item `category` defaults to `"other"`; missing
`totals.subtotal` / `deliveryCharge` default to 0. -/
theorem c6_normalization_drops_empty_optionals (raw : RawOrder) (now : Nat) :
    (∀ c, raw.customer = some c →
      (c.email = none ∨ (∃ s, c.email = some s ∧ jsTrim s = "")) →
      (cleanOrderData raw now).customer.email = none) ∧
    (∀ dl, raw.delivery = some dl →
      (dl.postalCode = none ∨ (∃ s, dl.postalCode = some s ∧ jsTrim s = "")) →
      (cleanOrderData raw now).delivery.postalCode = none) ∧
    (∀ p, raw.payment = some p →
      (p.transactionId = none ∨ (∃ s, p.transactionId = some s ∧ jsTrim s = "")) →
      (cleanOrderData raw now).payment.transactionId = none) ∧
    (∀ s, (cleanOrderData raw now).customer.email = some s → s ≠ "") ∧
    (∀ s, (cleanOrderData raw now).delivery.postalCode = some s → s ≠ "") ∧
    (∀ s, (cleanOrderData raw now).payment.transactionId = some s → s ≠ "") ∧
    (∀ it : RawItem, it.category = none ∨ it.category = some "" →
      (cleanItem it).category = "other") ∧
    (∀ its, raw.items = some its → (cleanOrderData raw now).items = its.map cleanItem) ∧
    (∀ t, raw.totals = some t → t.subtotal = none →
      (cleanOrderData raw now).totals.subtotal = 0) ∧
    (∀ t, raw.totals = some t → t.deliveryCharge = none →
      (cleanOrderData raw now).totals.deliveryCharge = 0) := by
  refine ⟨?_, ?_, ?_, ?_, ?_, ?_, ?_, ?_, ?_, ?_⟩
  · intro c hc h; simp only [cleanOrderData, hc, Option.getD_some]
    exact cleanOptional_none_cases _ h
  · intro dl hdl h; simp only [cleanOrderData, hdl, Option.getD_some]
    exact cleanOptional_none_cases _ h
  · intro p hp h; simp only [cleanOrderData, hp, Option.getD_some]
    exact cleanOptional_none_cases _ h
  · intro s h; exact cleanOptional_ne_empty _ _ h
  · intro s h; exact cleanOptional_ne_empty _ _ h
  · intro s h; exact cleanOptional_ne_empty _ _ h
  · intro it h; rcases h with h | h <;> simp [cleanItem, h]
  · intro its h; simp [cleanOrderData, h]
  · intro t h hs; simp [cleanOrderData, h, hs]
  · intro t h hs; simp [cleanOrderData, h, hs]

/-- C6 witness: a whitespace-only email is dropped, and the absent postal
code of `raw0` is stored as absent, not as a placeholder. -/
theorem c6_witness :
    (cleanOrderData rawEmailWS 5).customer.email = none ∧
    (cleanOrderData raw0 5).delivery.postalCode = none :=
  ⟨(c6_normalization_drops_empty_optionals rawEmailWS 5).1 _ rfl
      (Or.inr ⟨"  ", rfl, by decide⟩),
    (c6_normalization_drops_empty_optionals raw0 5).2.1 _ rfl (Or.inl rfl)⟩

/-- C7: the generated order number is `HM` + last-two-digits-of-year +
2-digit month + 2-digit day + 3-digit zero-padded suffix (11 characters);
the pre-save hook assigns it only when the document has none, leaves an
existing non-empty number unchanged (also across a re-save), and the
update route's `$set` never touches it. -/
theorem c7_order_number_assigned_once (ctx : SaveCtx) (d : OrderDoc) (u : UpdateData)
    (hy : 2 ≤ (Nat.repr ctx.year).length) (hm : ctx.month < 100)
    (hd : ctx.day < 100) (hr : ctx.rand < 1000) :
    ((genOrderNumber ctx.year ctx.month ctx.day ctx.rand).length = 11 ∧
      genOrderNumber ctx.year ctx.month ctx.day ctx.rand
        = "HM" ++ sliceLastTwo (Nat.repr ctx.year) ++ padStart 2 (Nat.repr ctx.month)
            ++ padStart 2 (Nat.repr ctx.day) ++ padStart 3 (Nat.repr ctx.rand) ∧
      (sliceLastTwo (Nat.repr ctx.year)).length = 2 ∧
      (padStart 2 (Nat.repr ctx.month)).length = 2 ∧
      (padStart 2 (Nat.repr ctx.day)).length = 2 ∧
      (padStart 3 (Nat.repr ctx.rand)).length = 3) ∧
    (d.orderNumber = none →
      (preSave ctx d).orderNumber = some (genOrderNumber ctx.year ctx.month ctx.day ctx.rand)) ∧
    (∀ s, d.orderNumber = some s → s ≠ "" → (preSave ctx d).orderNumber = some s) ∧
    (∀ saved, mongooseSave ctx d = .ok saved → ∀ s, d.orderNumber = some s → s ≠ "" →
      saved.orderNumber = some s) ∧
    ((applyUpdate u d).orderNumber = d.orderNumber) := by
  have hm2 : (Nat.repr ctx.month).length ≤ 2 := by
    have h100 : ∀ n, n < 100 → (Nat.repr n).length ≤ 2 := by decide
    exact h100 _ hm
  have hd2 : (Nat.repr ctx.day).length ≤ 2 := by
    have h100 : ∀ n, n < 100 → (Nat.repr n).length ≤ 2 := by decide
    exact h100 _ hd
  have hr2 : (Nat.repr ctx.rand).length ≤ 3 := by
    have h1000 : ∀ n, n < 1000 → (Nat.repr n).length ≤ 3 := by decide
    exact h1000 _ hr
  refine ⟨⟨?_, rfl, length_sliceLastTwo _ hy, length_padStart 2 _ hm2,
      length_padStart 2 _ hd2, length_padStart 3 _ hr2⟩, ?_, ?_, ?_, ?_⟩
  · show ("HM" ++ sliceLastTwo (Nat.repr ctx.year) ++ padStart 2 (Nat.repr ctx.month)
      ++ padStart 2 (Nat.repr ctx.day) ++ padStart 3 (Nat.repr ctx.rand)).length = 11
    rw [length_append_str, length_append_str, length_append_str, length_append_str,
      length_sliceLastTwo _ hy, length_padStart 2 _ hm2, length_padStart 2 _ hd2,
      length_padStart 3 _ hr2]
    rfl
  · intro h; simp [preSave, truthyS, h]
  · intro s h hs; simp [preSave, truthyS, h, hs]
  · intro saved hsv s h hs
    simp only [mongooseSave] at hsv
    by_cases hvd : schemaValid d = true
    · simp only [hvd, Bool.not_true, Bool.false_eq_true, if_false] at hsv
      have hpre : (preSave ctx d).orderNumber = some s := by simp [preSave, truthyS, h, hs]
      rw [hpre] at hsv
      by_cases hex : s ∈ ctx.existing
      · simp [hex] at hsv
      · simp [hex] at hsv
        rw [← hsv]
        exact hpre
    · simp [eq_false_of_ne_true hvd] at hsv
  · rfl

/-- C7 witness: at the fixture save context the number is the 11-character
`HM250115042`, and the hook leaves `doc0`'s assigned number unchanged. -/
theorem c7_witness :
    (genOrderNumber ctx0.year ctx0.month ctx0.day ctx0.rand).length = 11 ∧
    genOrderNumber 2025 1 15 42 = "HM250115042" ∧
    (preSave ctx0 doc0).orderNumber = some "HM250115042" :=
  ⟨(c7_order_number_assigned_once ctx0 doc0 ⟨none, none, none, 7⟩
      (by decide) (by decide) (by decide) (by decide)).1.1,
    by decide,
    (c7_order_number_assigned_once ctx0 doc0 ⟨none, none, none, 7⟩
      (by decide) (by decide) (by decide) (by decide)).2.2.1 "HM250115042" rfl (by decide)⟩

/-- C8: an update supplying only `adminNotes` changes exactly `adminNotes`
and `updatedAt`; in general a successful update bumps `updatedAt` and
changes only the supplied fields among status, adminNotes and
payment.status, leaving every other field of the order unchanged. -/
theorem c8_partial_update_frame :
    (∀ (d : OrderDoc) (notes : String) (now : Nat) (env : NotifyEnv),
      putOrder ⟨none, some notes, none⟩ (some d) now env
        = .okResp { d with adminNotes := notes, updatedAt := now } none) ∧
    (∀ (body : UpdateBody) (d : OrderDoc) (now : Nat) (env : NotifyEnv) r nf,
      putOrder body (some d) now env = .okResp r nf →
      r.updatedAt = now ∧
      (truthyS body.status = false → r.status = d.status) ∧
      (body.adminNotes = none → r.adminNotes = d.adminNotes) ∧
      (truthyS body.paymentStatus = false → r.payment.status = d.payment.status) ∧
      r.customer = d.customer ∧ r.delivery = d.delivery ∧ r.items = d.items ∧
      r.totals = d.totals ∧ r.orderNumber = d.orderNumber ∧ r.orderNotes = d.orderNotes ∧
      r.createdAt = d.createdAt) := by
  constructor
  · intro d notes now env
    simp [putOrder, mkUpdateData, updateValid, applyUpdate, truthyS]
  · intro body d now env r nf h
    simp only [putOrder] at h
    by_cases hv : updateValid (mkUpdateData body now) = true
    · simp [hv] at h
      obtain ⟨hr, -⟩ := h
      subst hr
      refine ⟨rfl, ?_, ?_, ?_, rfl, rfl, rfl, rfl, rfl, rfl, rfl⟩
      · intro hs; simp [applyUpdate, mkUpdateData, hs]
      · intro ha; simp [applyUpdate, mkUpdateData, ha]
      · intro hp; simp [applyUpdate, mkUpdateData, hp]
    · simp [eq_false_of_ne_true hv] at h

/-- C8 witness: updating `doc0` with only admin notes `"call back"`
changes exactly `adminNotes` and `updatedAt`; `status` stays `pending`. -/
theorem c8_witness :
    putOrder ⟨none, some "call back", none⟩ (some doc0) 7 env0
      = .okResp { doc0 with adminNotes := "call back", updatedAt := 7 } none ∧
    ({ doc0 with adminNotes := "call back", updatedAt := 7 } : OrderDoc).status
      = doc0.status ∧
    ({ doc0 with adminNotes := "call back", updatedAt := 7 } : OrderDoc).payment.status
      = doc0.payment.status :=
  ⟨by decide,
    (c8_partial_update_frame.2 ⟨none, some "call back", none⟩ doc0 7 env0
        { doc0 with adminNotes := "call back", updatedAt := 7 } none (by decide)).2.1
      (by decide),
    (c8_partial_update_frame.2 ⟨none, some "call back", none⟩ doc0 7 env0
        { doc0 with adminNotes := "call back", updatedAt := 7 } none (by decide)).2.2.2.1
      (by decide)⟩

/-- C9 counterexample: the body `{status: "bogus"}` supplies a status that
differs from the current `"pending"`, yet `runValidators` rejects the
unrecognized enum value before the dispatch point, so the handler answers
400 and no status-update notification is dispatched — refuting the
claimed "if and only if". -/
theorem c9_invalid_status_not_dispatched :
    (⟨some "bogus", none, none⟩ : UpdateBody).status = some "bogus" ∧
    ("bogus" : String) ≠ doc0.status ∧
    putOrder ⟨some "bogus", none, none⟩ (some doc0) 7 env0
      = .badRequest "Failed to update order" ∧
    dispatched (putOrder ⟨some "bogus", none, none⟩ (some doc0) 7 env0) = false :=
  ⟨rfl, by decide, by decide, by decide⟩

/-- C9 (amended): the status-update dispatch is invoked iff the supplied
`status` is a non-empty string, differs from the order's current status,
and the update itself passes the schema validators run by the update
(`status` and `payment.status` enums) — in particular updates supplying
only adminNotes or paymentStatus, re-supplying the current status, or
supplying an unrecognized status string never trigger it. -/
theorem c9_dispatch_condition (body : UpdateBody) (d : OrderDoc) (now : Nat)
    (env : NotifyEnv) :
    dispatched (putOrder body (some d) now env)
      = (truthyS body.status && (body.status.getD "") != d.status
          && updateValid (mkUpdateData body now)) := by
  simp only [putOrder]
  by_cases hv : updateValid (mkUpdateData body now) = true
  · simp only [hv, Bool.not_true, Bool.false_eq_true, if_false]
    by_cases ht : (truthyS body.status && (body.status.getD "") != d.status) = true
    · simp [ht, dispatched, hv]
    · simp [eq_false_of_ne_true ht] at ht ⊢
      simp [dispatched, ht, hv]
  · simp [eq_false_of_ne_true hv, dispatched]

/-- C10: in the update route, `status: ""` and `paymentStatus: ""` are
treated as absent (the stored field is left unchanged), whereas
`adminNotes: ""` is a real update that clears the stored admin notes —
because `adminNotes` is tested against `undefined` while the other two
are tested for truthiness. -/
theorem c10_empty_string_update_asymmetry :
    (∀ (d : OrderDoc) (now : Nat) (env : NotifyEnv),
      putOrder ⟨some "", none, none⟩ (some d) now env
        = .okResp { d with updatedAt := now } none) ∧
    (∀ (d : OrderDoc) (now : Nat) (env : NotifyEnv),
      putOrder ⟨none, none, some ""⟩ (some d) now env
        = .okResp { d with updatedAt := now } none) ∧
    (∀ (d : OrderDoc) (now : Nat) (env : NotifyEnv),
      putOrder ⟨none, some "", none⟩ (some d) now env
        = .okResp { d with adminNotes := "", updatedAt := now } none) := by
  refine ⟨fun d now env => ?_, fun d now env => ?_, fun d now env => ?_⟩ <;>
    simp [putOrder, mkUpdateData, updateValid, applyUpdate, truthyS]

end Herman
